import Mathlib

/-!
Verification development for the LicenseChain Polygon SDK.

The definitions below are a shallow embedding of the TypeScript sources:

* `retry` embeds the exponential-backoff helper `retry` of `src/utils.ts`
  (lines 137-161).  The asynchronous operation `fn` is determinised as a
  function from the (1-based) attempt number to its outcome, and the trace
  records the value delivered to the caller, the number of invocations of
  the operation, and the list of backoff delays passed to `setTimeout`, in
  order.
* `formatUnits`/`parseUnits` model the unit-conversion helpers of
  `src/utils.ts` (lines 37-43); those delegate to `ethers.utils`, whose
  source is not part of the repository, so they are modelled from the spec.
* `JsErr` and the manager operations embed the error taxonomy of
  `src/errors.ts` and the manager methods of `PolygonDeFiManager.ts`,
  `PolygonLicenseManager.ts`, `PolygonNFTManager.ts`,
  `PolygonContractManager.ts` and the wallet manager.  External RPC and
  contract calls are oracle parameters; each operation reports, next to its
  result, how many network calls it performed.
-/

namespace PolygonSDK

/-- Trace of one call to the `retry` helper of `src/utils.ts`: the value
`resolve`d or `reject`ed, how many times the operation `fn` was invoked, and
the successive delays handed to `setTimeout`, in order. -/
structure RetryTrace (E A : Type) where
  result : Except E A
  invocations : Nat
  delays : List Nat
  deriving Repr

/-- The recursive `attempt` closure inside `retry` (src/utils.ts lines
145-157).  `attempts` counts the failures so far, exactly like the mutable
counter in the source; the current invocation of `fn` is number
`attempts + 1`.  On failure the counter is incremented and compared with
`maxRetries` (`attempts >= maxRetries` rejects with the caught error),
otherwise `setTimeout(attempt, delay * Math.pow(2, attempts - 1))` schedules
the next attempt. `maxRetries` is an integer so that zero and negative
arguments are representable. -/
def retryGo {E A : Type} (fn : Nat → Except E A) (maxRetries : Int)
    (delay : Nat) (attempts : Nat) (delays : List Nat) : RetryTrace E A :=
  match fn (attempts + 1) with
  | Except.ok a => ⟨Except.ok a, attempts + 1, delays⟩
  | Except.error e =>
    if ((attempts + 1 : Nat) : Int) ≥ maxRetries then
      ⟨Except.error e, attempts + 1, delays⟩
    else
      retryGo fn maxRetries delay (attempts + 1)
        (delays ++ [delay * 2 ^ attempts])
termination_by maxRetries.toNat - attempts
decreasing_by
  rename_i hlt
  omega

/-- `retry(fn, maxRetries, delay)` of `src/utils.ts` lines 137-161.  The
source defaults are `maxRetries = 3`, `delay = 1000`. -/
def retry {E A : Type} (fn : Nat → Except E A) (maxRetries : Int)
    (delay : Nat) : RetryTrace E A :=
  retryGo fn maxRetries delay 0 []

theorem retryGo_ok {E A : Type} {fn : Nat → Except E A} {maxRetries : Int}
    {delay attempts : Nat} {delays : List Nat} {a : A}
    (h : fn (attempts + 1) = Except.ok a) :
    retryGo fn maxRetries delay attempts delays =
      ⟨Except.ok a, attempts + 1, delays⟩ := by
  rw [retryGo, h]

theorem retryGo_error_stop {E A : Type} {fn : Nat → Except E A}
    {maxRetries : Int} {delay attempts : Nat} {delays : List Nat} {e : E}
    (h : fn (attempts + 1) = Except.error e)
    (hstop : ((attempts + 1 : Nat) : Int) ≥ maxRetries) :
    retryGo fn maxRetries delay attempts delays =
      ⟨Except.error e, attempts + 1, delays⟩ := by
  rw [retryGo, h]
  exact if_pos hstop

theorem retryGo_error_cont {E A : Type} {fn : Nat → Except E A}
    {maxRetries : Int} {delay attempts : Nat} {delays : List Nat} {e : E}
    (h : fn (attempts + 1) = Except.error e)
    (hcont : ¬ ((attempts + 1 : Nat) : Int) ≥ maxRetries) :
    retryGo fn maxRetries delay attempts delays =
      retryGo fn maxRetries delay (attempts + 1)
        (delays ++ [delay * 2 ^ attempts]) := by
  rw [retryGo, h]
  exact if_neg hcont

/-- If the operation fails on each of its first `j` attempts and `j` is below
the attempt cap, the run reaches the state with failure counter `j`, having
scheduled exactly the delays `D * 2 ^ 0, …, D * 2 ^ (j-1)`. -/
theorem retry_fail_segment {E A : Type} (fn : Nat → Except E A) (N : Int)
    (D : Nat) (j : Nat) (hj : (j : Int) < N)
    (hfail : ∀ i, 1 ≤ i → i ≤ j → ∃ e, fn i = Except.error e) :
    retryGo fn N D 0 [] =
      retryGo fn N D j ((List.range j).map (fun i => D * 2 ^ i)) := by
  induction j with
  | zero => simp
  | succ j ih =>
    have hj' : (j : Int) < N := by push_cast at hj ⊢; omega
    obtain ⟨e, he⟩ := hfail (j + 1) (by omega) (by omega)
    rw [ih hj' (fun i h1 h2 => hfail i h1 (by omega)),
      retryGo_error_cont he (by push_cast at hj ⊢; omega)]
    congr 1
    simp [List.range_succ]

/-- Whatever happens after state `(attempts, acc)`, the already accumulated
delay list `acc` stays a prefix of the final trace's delay list. -/
theorem retryGo_delays_extend {E A : Type} (fn : Nat → Except E A) (N : Int)
    (D : Nat) :
    ∀ (k attempts : Nat) (acc : List Nat), N.toNat - attempts ≤ k →
      ∃ rest, (retryGo fn N D attempts acc).delays = acc ++ rest := by
  intro k
  induction k with
  | zero =>
    intro attempts acc hk
    cases hfn : fn (attempts + 1) with
    | ok a => exact ⟨[], by rw [retryGo_ok hfn]; simp⟩
    | error e =>
      refine ⟨[], ?_⟩
      rw [retryGo_error_stop hfn (by omega)]
      simp
  | succ k ih =>
    intro attempts acc hk
    cases hfn : fn (attempts + 1) with
    | ok a => exact ⟨[], by rw [retryGo_ok hfn]; simp⟩
    | error e =>
      by_cases hstop : ((attempts + 1 : Nat) : Int) ≥ N
      · refine ⟨[], ?_⟩
        rw [retryGo_error_stop hfn hstop]
        simp
      · rw [retryGo_error_cont hfn hstop]
        obtain ⟨rest, hr⟩ :=
          ih (attempts + 1) (acc ++ [D * 2 ^ attempts]) (by omega)
        exact ⟨[D * 2 ^ attempts] ++ rest, by rw [hr, List.append_assoc]⟩

theorem retry_delays_monotone {E A : Type} (fn : Nat → Except E A) (N : Int)
    (D : Nat) (attempts : Nat) (acc : List Nat) :
    ∃ rest, (retryGo fn N D attempts acc).delays = acc ++ rest :=
  retryGo_delays_extend fn N D (N.toNat - attempts) attempts acc le_rfl

/-- Closed form of `retry` on an operation that fails on every attempt:
the `maxRetries`-th error is rejected after exactly `maxRetries` invocations,
with the geometric backoff delays scheduled in between. -/
theorem retry_allFail {E A : Type} (err : Nat → E) (N : Int) (D : Nat)
    (hN : 1 ≤ N) :
    retry (fun k => (Except.error (err k) : Except E A)) N D =
      ⟨Except.error (err N.toNat), N.toNat,
        (List.range (N.toNat - 1)).map (fun i => D * 2 ^ i)⟩ := by
  unfold retry
  rw [retry_fail_segment (fun k => (Except.error (err k) : Except E A)) N D
      (N.toNat - 1) (by omega) (fun i _ _ => ⟨err i, rfl⟩)]
  refine (retryGo_error_stop (e := err (N.toNat - 1 + 1)) rfl (by omega)).trans ?_
  have hstep : N.toNat - 1 + 1 = N.toNat := by omega
  rw [hstep]

theorem sum_geometric_delays (D : Nat) :
    ∀ n : Nat, ((List.range n).map (fun i => D * 2 ^ i)).sum =
      D * (2 ^ n - 1) := by
  intro n
  induction n with
  | zero => simp
  | succ n ih =>
    rw [List.range_succ, List.map_append, List.sum_append, ih]
    have h1 : 1 ≤ 2 ^ n := Nat.one_le_two_pow
    rw [show 2 ^ (n + 1) - 1 = (2 ^ n - 1) + 2 ^ n by rw [pow_succ]; omega,
      Nat.mul_add]
    simp

/-- C1: for an operation that fails on every invocation and `maxAttempts`
`N ≥ 1`, `retry(op, N, D)` invokes the operation exactly `N` times and then
rejects with the error produced by the `N`-th invocation itself, not a
wrapped or different error. -/
theorem retry_always_failing_invokes_N_and_rejects_last {E A : Type}
    (err : Nat → E) (N : Int) (D : Nat) (hN : 1 ≤ N) :
    (retry (fun k => (Except.error (err k) : Except E A)) N D).invocations =
      N.toNat ∧
    (retry (fun k => (Except.error (err k) : Except E A)) N D).result =
      Except.error (err N.toNat) := by
  rw [retry_allFail err N D hN]
  exact ⟨rfl, rfl⟩

theorem retry_always_failing_invokes_N_and_rejects_last_witness :
    (1 : Int) ≤ 3 ∧
    ((retry (fun k => (Except.error (toString k) : Except String Unit)) 3
        5).invocations = 3 ∧
      (retry (fun k => (Except.error (toString k) : Except String Unit)) 3
        5).result = Except.error "3") :=
  ⟨by norm_num, by
    simpa using retry_always_failing_invokes_N_and_rejects_last
      (A := Unit) (fun k => toString k) 3 5 (by norm_num)⟩

/-- C2: if the operation succeeds on attempt `K ≤ N`, `retry` resolves with
that attempt's result after exactly `K` invocations, and only the `K - 1`
backoff delays that preceded the success were ever scheduled. -/
theorem retry_success_short_circuits {E A : Type} (fn : Nat → Except E A)
    (N : Int) (D : Nat) (K : Nat) (a : A) (hK : 1 ≤ K) (hKN : (K : Int) ≤ N)
    (hfail : ∀ j, 1 ≤ j → j < K → ∃ e, fn j = Except.error e)
    (hsucc : fn K = Except.ok a) :
    (retry fn N D).result = Except.ok a ∧
    (retry fn N D).invocations = K ∧
    (retry fn N D).delays.length = K - 1 := by
  unfold retry
  rw [retry_fail_segment fn N D (K - 1) (by omega)
      (fun i h1 h2 => hfail i h1 (by omega)),
    retryGo_ok (by rw [show K - 1 + 1 = K by omega]; exact hsucc)]
  refine ⟨rfl, by simp; omega, by simp⟩

theorem retry_success_short_circuits_witness :
    1 ≤ 2 ∧ ((2 : Nat) : Int) ≤ 4 ∧
    ((retry (fun k => if k < 2 then Except.error "boom" else Except.ok k) 4
        9).result = Except.ok 2 ∧
      (retry (fun k => if k < 2 then Except.error "boom" else Except.ok k) 4
        9).invocations = 2 ∧
      (retry (fun k => if k < 2 then Except.error "boom" else Except.ok k) 4
        9).delays.length = 2 - 1) :=
  ⟨by norm_num, by norm_num,
    retry_success_short_circuits
      (fun k => if k < 2 then Except.error "boom" else Except.ok k) 4 9 2 2
      (by norm_num) (by norm_num)
      (fun j h1 h2 => ⟨"boom", by interval_cases j <;> rfl⟩) (by rfl)⟩

/-- C3: while the operation keeps failing, the delay scheduled after failing
attempt `K` (for `K` below the attempt cap) is exactly `D * 2 ^ (K - 1)`
milliseconds, and the delays accumulated before attempt `K` sum to
`D * (2 ^ (K - 1) - 1)`. -/
theorem retry_backoff_schedule {E A : Type} (fn : Nat → Except E A) (N : Int)
    (D : Nat) (K : Nat) (hK : 1 ≤ K) (hKN : (K : Int) < N)
    (hfail : ∀ j, 1 ≤ j → j ≤ K → ∃ e, fn j = Except.error e) :
    (retry fn N D).delays.get? (K - 1) = some (D * 2 ^ (K - 1)) ∧
    ((retry fn N D).delays.take (K - 1)).sum = D * (2 ^ (K - 1) - 1) := by
  unfold retry
  rw [retry_fail_segment fn N D K hKN hfail]
  obtain ⟨rest, hr⟩ :=
    retry_delays_monotone fn N D K ((List.range K).map (fun i => D * 2 ^ i))
  rw [hr]
  have hlen : ((List.range K).map (fun i => D * 2 ^ i)).length = K := by simp
  constructor
  · rw [List.get?_append (by omega), List.get?_map,
      List.get?_range (by omega)]
    rfl
  · rw [List.take_append_of_le_length (by omega), ← List.map_take,
      List.take_range, show min (K - 1) K = K - 1 by omega,
      sum_geometric_delays]

theorem retry_backoff_schedule_witness :
    1 ≤ 3 ∧ ((3 : Nat) : Int) < 5 ∧
    ((retry (fun k => (Except.error k : Except Nat Unit)) 5 100).delays.get?
        (3 - 1) = some (100 * 2 ^ (3 - 1)) ∧
      ((retry (fun k => (Except.error k : Except Nat Unit)) 5
          100).delays.take (3 - 1)).sum = 100 * (2 ^ (3 - 1) - 1)) :=
  ⟨by norm_num, by norm_num,
    retry_backoff_schedule (fun k => (Except.error k : Except Nat Unit)) 5
      100 3 (by norm_num) (by norm_num) (fun j h1 h2 => ⟨j, rfl⟩)⟩

/-- C10: if `retry` is called with `maxRetries ≤ 1` (including zero and
negative values), it still invokes the operation exactly once — the attempt
cap is only checked after a failure — and on a first failure it rejects
immediately with that error, scheduling no delay. -/
theorem retry_low_cap_single_attempt {E A : Type} (fn : Nat → Except E A)
    (N : Int) (D : Nat) (hN : N ≤ 1) :
    retry fn N D = ⟨fn 1, 1, []⟩ := by
  unfold retry
  cases hfn : fn 1 with
  | ok a =>
    rw [retryGo_ok hfn, ← hfn]
  | error e =>
    rw [retryGo_error_stop hfn (by omega), ← hfn]

theorem retry_low_cap_single_attempt_witness :
    (-2 : Int) ≤ 1 ∧
    retry (fun _ => (Except.error "boom" : Except String Nat)) (-2) 50 =
      ⟨Except.error "boom", 1, []⟩ :=
  ⟨by norm_num,
    retry_low_cap_single_attempt
      (fun _ => (Except.error "boom" : Except String Nat)) (-2) 50
      (by norm_num)⟩

/-! ### Unit conversion: `parseUnits` / `formatUnits` (src/utils.ts 37-43) -/

def digitToChar (d : Nat) : Char :=
  if d < 10 then Char.ofNat ('0'.toNat + d) else '?'

def charToDigit (c : Char) : Option Nat :=
  if '0' ≤ c ∧ c ≤ '9' then some (c.toNat - '0'.toNat) else none

/-- Little-endian decimal digits of `n` (empty for `0`); the first argument
is recursion fuel, instantiated with `n` itself in `natDigits`. -/
def natDigitsAux : Nat → Nat → List Nat
  | 0, _ => []
  | fuel + 1, n => if n = 0 then [] else n % 10 :: natDigitsAux fuel (n / 10)

def natDigits (n : Nat) : List Nat := natDigitsAux n n

/-- Canonical decimal numeral of `n` (BigNumber `.toString()`). -/
def natToChars (n : Nat) : List Char :=
  if n = 0 then ['0'] else ((natDigits n).map digitToChar).reverse

def natToString (n : Nat) : String := ⟨natToChars n⟩

/-- Numeric value of a little-endian digit-character list; `none` on a
non-digit character. -/
def parseDigitsLE : List Char → Option Nat
  | [] => some 0
  | c :: cs =>
    match charToDigit c, parseDigitsLE cs with
    | some d, some v => some (v * 10 + d)
    | _, _ => none

/-- Numeric value of a (most-significant-first) decimal numeral. -/
def parseDecDigits (s : List Char) : Option Nat :=
  if s = [] then none else parseDigitsLE s.reverse

def trimTrailingZeros (s : List Char) : List Char :=
  (s.reverse.dropWhile (fun c => c == '0')).reverse

def padLeftZeros (s : List Char) (len : Nat) : List Char :=
  List.replicate (len - s.length) '0' ++ s

def padRightZeros (s : List Char) (len : Nat) : List Char :=
  s ++ List.replicate (len - s.length) '0'

/-- Character-list form of `formatUnits` below. -/
def formatUnitsChars (value : Nat) (decimals : Nat) : List Char :=
  if decimals = 0 then natToChars (value / 10 ^ decimals)
  else
    natToChars (value / 10 ^ decimals) ++ '.' ::
      (if trimTrailingZeros
          (padLeftZeros (natToChars (value % 10 ^ decimals)) decimals) = []
       then ['0']
       else trimTrailingZeros
          (padLeftZeros (natToChars (value % 10 ^ decimals)) decimals))

/-- Modelled from the spec: `formatUnits(value, decimals)` in `src/utils.ts`
line 41 delegates to `ethers.utils.formatUnits`, an external library whose
source is not part of this repository.  Following the spec (§4.3 and §8
property 9): the whole part is `value / 10 ^ decimals`; the fractional part
is `value % 10 ^ decimals` left-padded to `decimals` digits, with trailing
zeros dropped but at least one fractional digit kept (so
`formatUnits("1000000000000000000", 18) = "1.0"`); for `decimals = 0` the
result is the plain integer numeral.  Only non-negative values are
modelled, as only those appear in the claims. -/
def formatUnits (value : Nat) (decimals : Nat) : String :=
  ⟨formatUnitsChars value decimals⟩

/-- Split a character list at the first dot: the part before it and,
when a dot is present, the part after it. -/
def breakDot : List Char → List Char × Option (List Char)
  | [] => ([], none)
  | c :: rest =>
    if c = '.' then ([], some rest)
    else
      let p := breakDot rest
      (c :: p.1, p.2)

/-- The fractional component of a decimal string: what follows the first
dot, or empty when there is no dot. -/
def fracPart (value : List Char) : List Char :=
  match (breakDot value).2 with
  | none => []
  | some f => f

/-- The whole component of a decimal string, an empty whole part counting
as `"0"` (as in `parseFixed`). -/
def wholePartOr0 (value : List Char) : List Char :=
  if (breakDot value).1 = [] then ['0'] else (breakDot value).1

/-- The fractional component with its trailing zeros dropped, an empty
result counting as `"0"`. -/
def fracCanon (value : List Char) : List Char :=
  if trimTrailingZeros (fracPart value) = [] then ['0']
  else trimTrailingZeros (fracPart value)

/-- Character-list form of `parseUnits` below. -/
def parseUnitsChars (value : List Char) (decimals : Nat) : Option Nat :=
  if (fracPart value).any (fun c => c == '.') then none
  else if decimals < (trimTrailingZeros (fracPart value)).length then none
  else
    match parseDecDigits (wholePartOr0 value),
      parseDecDigits (padRightZeros (fracCanon value) decimals) with
    | some w, some f => some (w * 10 ^ decimals + f)
    | _, _ => none

/-- Modelled from the spec: `parseUnits(value, decimals)` in `src/utils.ts`
line 37 delegates to `ethers.utils.parseUnits`, an external library whose
source is not part of this repository.  Following the spec (§4.3): the
decimal string is split at the dot; an empty whole part counts as `0`;
trailing zeros of the fractional part are dropped, and what remains must
fit in `decimals` digits; the value is
`whole * 10 ^ decimals + fraction-padded-to-decimals`.  `none` models the
exception thrown on malformed input (a second dot, an over-long fraction, a
non-digit character).  Only non-negative values are modelled. -/
def parseUnits (value : String) (decimals : Nat) : Option Nat :=
  parseUnitsChars value.data decimals

/-- `parseUnits` as exposed by `src/utils.ts`: the parsed base-unit value
rendered back to its decimal string (`.toString()` in the source). -/
def parseUnitsStr (value : String) (decimals : Nat) : Option String :=
  (parseUnits value decimals).map natToString

/-- Value of a little-endian digit list. -/
def ofDigitsLE : List Nat → Nat
  | [] => 0
  | d :: ds => ofDigitsLE ds * 10 + d

theorem charToDigit_digitToChar : ∀ d, d < 10 →
    charToDigit (digitToChar d) = some d := by decide

theorem ofDigitsLE_natDigitsAux :
    ∀ fuel n, n ≤ fuel → ofDigitsLE (natDigitsAux fuel n) = n := by
  intro fuel
  induction fuel with
  | zero =>
    intro n hn
    simp only [natDigitsAux, ofDigitsLE]
    omega
  | succ fuel ih =>
    intro n hn
    by_cases h : n = 0
    · simp [natDigitsAux, h, ofDigitsLE]
    · have hdiv : n / 10 < n := Nat.div_lt_self (Nat.pos_of_ne_zero h)
        (by norm_num)
      simp only [natDigitsAux, h, if_false, ofDigitsLE]
      rw [ih (n / 10) (by omega)]
      omega

theorem natDigitsAux_lt :
    ∀ fuel n d, d ∈ natDigitsAux fuel n → d < 10 := by
  intro fuel
  induction fuel with
  | zero =>
    intro n d hd
    simp [natDigitsAux] at hd
  | succ fuel ih =>
    intro n d hd
    by_cases h : n = 0
    · simp [natDigitsAux, h] at hd
    · simp only [natDigitsAux, h, if_false, List.mem_cons] at hd
      rcases hd with hd | hd
      · omega
      · exact ih _ _ hd

theorem natDigitsAux_ne_nil :
    ∀ fuel n, n ≠ 0 → n ≤ fuel → natDigitsAux fuel n ≠ [] := by
  intro fuel n h hn
  cases fuel with
  | zero => omega
  | succ fuel => simp [natDigitsAux, h]

theorem natDigitsAux_length :
    ∀ fuel n d, n ≤ fuel → n < 10 ^ d →
      (natDigitsAux fuel n).length ≤ d := by
  intro fuel
  induction fuel with
  | zero =>
    intro n d hn hd
    simp [natDigitsAux]
  | succ fuel ih =>
    intro n d hn hd
    by_cases h : n = 0
    · simp [natDigitsAux, h]
    · cases d with
      | zero =>
        simp only [pow_zero, Nat.lt_one_iff] at hd
        omega
      | succ d =>
        have hdiv : n / 10 < n := Nat.div_lt_self (Nat.pos_of_ne_zero h)
          (by norm_num)
        have hlt : n / 10 < 10 ^ d := by
          rw [pow_succ, mul_comm] at hd
          exact Nat.div_lt_of_lt_mul hd
        simp only [natDigitsAux, h, if_false, List.length_cons]
        have := ih (n / 10) d (by omega) hlt
        omega

theorem ofDigitsLE_natDigits (n : Nat) : ofDigitsLE (natDigits n) = n :=
  ofDigitsLE_natDigitsAux n n le_rfl

theorem natDigits_lt {n d : Nat} (h : d ∈ natDigits n) : d < 10 :=
  natDigitsAux_lt n n d h

theorem natDigits_ne_nil {n : Nat} (h : n ≠ 0) : natDigits n ≠ [] :=
  natDigitsAux_ne_nil n n h le_rfl

theorem natDigits_length {n d : Nat} (h : n < 10 ^ d) :
    (natDigits n).length ≤ d :=
  natDigitsAux_length n n d le_rfl h

theorem parseDigitsLE_map :
    ∀ ds : List Nat, (∀ d ∈ ds, d < 10) →
      parseDigitsLE (ds.map digitToChar) = some (ofDigitsLE ds) := by
  intro ds
  induction ds with
  | nil => intro _; rfl
  | cons d ds ih =>
    intro h
    simp only [List.map_cons, parseDigitsLE]
    rw [charToDigit_digitToChar d (h d (by simp)),
      ih (fun x hx => h x (by simp [hx]))]
    rfl

theorem parseDigitsLE_natToChars_reverse (n : Nat) :
    parseDigitsLE (natToChars n).reverse = some n := by
  by_cases h : n = 0
  · subst h; rfl
  · unfold natToChars
    rw [if_neg h, List.reverse_reverse,
      parseDigitsLE_map _ (fun d hd => natDigits_lt hd), ofDigitsLE_natDigits]

theorem natToChars_ne_nil (n : Nat) : natToChars n ≠ [] := by
  unfold natToChars
  by_cases h : n = 0
  · simp [h]
  · simp only [h, if_false, ne_eq, List.reverse_eq_nil_iff,
      List.map_eq_nil_iff]
    exact natDigits_ne_nil h

theorem parseDecDigits_natToChars (n : Nat) :
    parseDecDigits (natToChars n) = some n := by
  unfold parseDecDigits
  rw [if_neg (natToChars_ne_nil n)]
  exact parseDigitsLE_natToChars_reverse n

theorem mem_natToChars_digit {n : Nat} {c : Char} (hc : c ∈ natToChars n) :
    (charToDigit c).isSome := by
  unfold natToChars at hc
  by_cases h : n = 0
  · rw [if_pos h] at hc
    simp at hc
    subst hc
    rfl
  · rw [if_neg h, List.mem_reverse] at hc
    obtain ⟨d, hd, rfl⟩ := List.mem_map.mp hc
    rw [charToDigit_digitToChar d (natDigits_lt hd)]
    rfl

theorem digitChar_ne_dot {c : Char} (h : (charToDigit c).isSome) :
    c ≠ '.' := by
  intro he
  subst he
  exact absurd h (by decide)

theorem natToChars_length_le {n d : Nat} (hn : n < 10 ^ d) (hd : 1 ≤ d) :
    (natToChars n).length ≤ d := by
  unfold natToChars
  by_cases h : n = 0
  · simp [h]; omega
  · simp only [h, if_false, List.length_reverse, List.length_map]
    exact natDigits_length hn

theorem dropWhile_idem {α : Type} (p : α → Bool) :
    ∀ l : List α, (l.dropWhile p).dropWhile p = l.dropWhile p := by
  intro l
  induction l with
  | nil => rfl
  | cons a l ih =>
    cases h : p a with
    | true => simp [List.dropWhile_cons, h, ih]
    | false => simp [List.dropWhile_cons, h]

theorem mem_dropWhile {α : Type} (p : α → Bool) :
    ∀ (l : List α) (a : α), a ∈ l.dropWhile p → a ∈ l := by
  intro l
  induction l with
  | nil => simp
  | cons x l ih =>
    intro a ha
    cases h : p x with
    | true =>
      rw [List.dropWhile_cons_of_pos h] at ha
      exact List.mem_cons_of_mem x (ih a ha)
    | false =>
      rw [List.dropWhile_cons_of_neg (by simp [h])] at ha
      exact ha

/-- Re-appending the dropped trailing zeros restores the original list. -/
theorem trim_restore (s : List Char) :
    trimTrailingZeros s ++
      List.replicate (s.length - (trimTrailingZeros s).length) '0' = s := by
  unfold trimTrailingZeros
  have htake : s.reverse.takeWhile (fun c => c == '0') =
      List.replicate (s.reverse.takeWhile (fun c => c == '0')).length '0' :=
    List.eq_replicate_of_mem (fun b hb => by
      simpa using List.mem_takeWhile_imp hb)
  have hlen : s.length =
      (s.reverse.takeWhile (fun c => c == '0')).length +
        (s.reverse.dropWhile (fun c => c == '0')).length := by
    conv_lhs => rw [← List.length_reverse s,
      ← List.takeWhile_append_dropWhile (p := fun c => c == '0')
        (l := s.reverse)]
    rw [List.length_append]
  rw [List.length_reverse]
  conv_rhs => rw [← List.reverse_reverse s,
    ← List.takeWhile_append_dropWhile (p := fun c => c == '0')
      (l := s.reverse)]
  rw [List.reverse_append]
  congr 1
  rw [htake, List.reverse_replicate]
  congr 1
  omega

theorem trim_idem (s : List Char) :
    trimTrailingZeros (trimTrailingZeros s) = trimTrailingZeros s := by
  unfold trimTrailingZeros
  rw [List.reverse_reverse, dropWhile_idem]

theorem trim_replicate_zero (k : Nat) :
    trimTrailingZeros (List.replicate k '0') = [] := by
  unfold trimTrailingZeros
  have h : List.dropWhile (fun c => c == '0')
      (List.replicate k '0').reverse = [] := by
    rw [List.dropWhile_eq_nil_iff]
    intro x hx
    rw [List.reverse_replicate] at hx
    simp [List.eq_of_mem_replicate hx]
  rw [h]
  rfl

theorem trim_length_le (s : List Char) :
    (trimTrailingZeros s).length ≤ s.length := by
  unfold trimTrailingZeros
  rw [List.length_reverse]
  calc (s.reverse.dropWhile (fun c => c == '0')).length
      ≤ s.reverse.length := (List.dropWhile_sublist _).length_le
    _ = s.length := List.length_reverse s

theorem mem_trim {c : Char} {s : List Char}
    (h : c ∈ trimTrailingZeros s) : c ∈ s := by
  unfold trimTrailingZeros at h
  rw [List.mem_reverse] at h
  have := mem_dropWhile _ _ _ h
  rwa [List.mem_reverse] at this

/-- Trimming the trailing zeros and then right-padding back to the original
length is the identity (including the degenerate all-zero case, where the
trimmed fraction is rendered as a single `'0'`). -/
theorem padRight_trim (s : List Char) (d : Nat) (hlen : s.length = d)
    (hd : 1 ≤ d) :
    padRightZeros
      (if trimTrailingZeros s = [] then ['0'] else trimTrailingZeros s) d =
      s := by
  by_cases ht : trimTrailingZeros s = []
  · rw [if_pos ht]
    have hs : s = List.replicate d '0' := by
      have h := trim_restore s
      rw [ht, hlen] at h
      simpa using h.symm
    rw [hs]
    unfold padRightZeros
    rw [show d = (d - 1) + 1 by omega]
    simp [List.replicate_succ]
  · rw [if_neg ht]
    unfold padRightZeros
    have h := trim_restore s
    rw [hlen] at h
    exact h

theorem parseDigitsLE_replicate_zero :
    ∀ k, parseDigitsLE (List.replicate k '0') = some 0 := by
  intro k
  induction k with
  | zero => rfl
  | succ k ih => simp [List.replicate_succ, parseDigitsLE, charToDigit, ih]

theorem parseDigitsLE_append_zeros :
    ∀ (t : List Char) (k : Nat),
      parseDigitsLE (t ++ List.replicate k '0') = parseDigitsLE t := by
  intro t
  induction t with
  | nil =>
    intro k
    rw [List.nil_append, parseDigitsLE_replicate_zero]
    rfl
  | cons c cs ih =>
    intro k
    simp only [List.cons_append, parseDigitsLE, List.append_eq, ih]

theorem breakDot_no_dot :
    ∀ s : List Char, (∀ c ∈ s, c ≠ '.') → breakDot s = (s, none) := by
  intro s
  induction s with
  | nil => intro _; rfl
  | cons c cs ih =>
    intro h
    unfold breakDot
    rw [if_neg (h c (by simp)), ih (fun x hx => h x (by simp [hx]))]

theorem breakDot_append :
    ∀ (a b : List Char), (∀ c ∈ a, c ≠ '.') →
      breakDot (a ++ '.' :: b) = (a, some b) := by
  intro a b
  induction a with
  | nil =>
    intro _
    unfold breakDot
    rw [List.nil_append]
    simp
  | cons c cs ih =>
    intro h
    rw [List.cons_append]
    unfold breakDot
    rw [if_neg (h c (by simp)), ih (fun x hx => h x (by simp [hx]))]

theorem fracPart_no_dot {s : List Char} (h : ∀ c ∈ s, c ≠ '.') :
    fracPart s = [] := by
  unfold fracPart
  rw [breakDot_no_dot s h]

theorem wholePartOr0_no_dot {s : List Char} (h : ∀ c ∈ s, c ≠ '.')
    (hne : s ≠ []) : wholePartOr0 s = s := by
  unfold wholePartOr0
  rw [breakDot_no_dot s h]
  exact if_neg hne

theorem fracPart_append {a b : List Char} (h : ∀ c ∈ a, c ≠ '.') :
    fracPart (a ++ '.' :: b) = b := by
  unfold fracPart
  rw [breakDot_append a b h]

theorem wholePartOr0_append {a b : List Char} (h : ∀ c ∈ a, c ≠ '.')
    (hane : a ≠ []) : wholePartOr0 (a ++ '.' :: b) = a := by
  unfold wholePartOr0
  rw [breakDot_append a b h]
  exact if_neg hane

theorem any_dot_false {l : List Char}
    (h : ∀ c ∈ l, (charToDigit c).isSome) :
    (l.any (fun c => c == '.')) = false := by
  rw [List.any_eq_false]
  intro c hc
  simpa using digitChar_ne_dot (h c hc)

theorem parseDecDigits_padLeft (n len : Nat) :
    parseDecDigits (padLeftZeros (natToChars n) len) = some n := by
  unfold parseDecDigits padLeftZeros
  rw [if_neg (by simp [natToChars_ne_nil]), List.reverse_append,
    List.reverse_replicate, parseDigitsLE_append_zeros,
    parseDigitsLE_natToChars_reverse]

theorem natToChars_no_dot {n : Nat} : ∀ c ∈ natToChars n, c ≠ '.' :=
  fun _ hc => digitChar_ne_dot (mem_natToChars_digit hc)

/-- Round trip at the character-list level: formatting a base-unit value and
parsing it back is the identity, for every `decimals`. -/
theorem parseUnitsChars_formatUnitsChars (x d : Nat) :
    parseUnitsChars (formatUnitsChars x d) d = some x := by
  by_cases hdz : d = 0
  · subst hdz
    have hx0 : formatUnitsChars x 0 = natToChars x := by
      unfold formatUnitsChars
      simp
    rw [hx0]
    unfold parseUnitsChars fracCanon
    rw [fracPart_no_dot natToChars_no_dot,
      wholePartOr0_no_dot natToChars_no_dot (natToChars_ne_nil x),
      parseDecDigits_natToChars,
      show trimTrailingZeros ([] : List Char) = [] from rfl]
    simp [show parseDecDigits (padRightZeros ['0'] 0) = some 0 from rfl]
  · have hd1 : 1 ≤ d := by omega
    have hF : x % 10 ^ d < 10 ^ d := Nat.mod_lt x (pow_pos (by norm_num) d)
    have hfs_len :
        (padLeftZeros (natToChars (x % 10 ^ d)) d).length = d := by
      unfold padLeftZeros
      rw [List.length_append, List.length_replicate]
      have := natToChars_length_le hF hd1
      omega
    have hfs_dig : ∀ c ∈ padLeftZeros (natToChars (x % 10 ^ d)) d,
        (charToDigit c).isSome := by
      intro c hc
      unfold padLeftZeros at hc
      rcases List.mem_append.mp hc with hc | hc
      · rw [List.eq_of_mem_replicate hc]
        rfl
      · exact mem_natToChars_digit hc
    have hffdig : ∀ c ∈
        (if trimTrailingZeros (padLeftZeros (natToChars (x % 10 ^ d)) d) = []
         then ['0']
         else trimTrailingZeros (padLeftZeros (natToChars (x % 10 ^ d)) d)),
        (charToDigit c).isSome := by
      intro c hc
      by_cases ht :
          trimTrailingZeros (padLeftZeros (natToChars (x % 10 ^ d)) d) = []
      · rw [if_pos ht] at hc
        simp at hc
        subst hc
        rfl
      · rw [if_neg ht] at hc
        exact hfs_dig c (mem_trim hc)
    have hfu : formatUnitsChars x d = natToChars (x / 10 ^ d) ++ '.' ::
        (if trimTrailingZeros (padLeftZeros (natToChars (x % 10 ^ d)) d) = []
         then ['0']
         else trimTrailingZeros
            (padLeftZeros (natToChars (x % 10 ^ d)) d)) := by
      unfold formatUnitsChars
      rw [if_neg hdz]
    rw [hfu]
    unfold parseUnitsChars fracCanon
    rw [fracPart_append natToChars_no_dot,
      wholePartOr0_append natToChars_no_dot (natToChars_ne_nil _),
      any_dot_false hffdig]
    have htff : trimTrailingZeros
        (if trimTrailingZeros (padLeftZeros (natToChars (x % 10 ^ d)) d) = []
         then ['0']
         else trimTrailingZeros (padLeftZeros (natToChars (x % 10 ^ d)) d)) =
        trimTrailingZeros (padLeftZeros (natToChars (x % 10 ^ d)) d) := by
      by_cases ht :
          trimTrailingZeros (padLeftZeros (natToChars (x % 10 ^ d)) d) = []
      · rw [if_pos ht, ht,
          show (['0'] : List Char) = List.replicate 1 '0' from rfl,
          trim_replicate_zero]
      · rw [if_neg ht, trim_idem]
    rw [htff]
    have hlen_le : (trimTrailingZeros
        (padLeftZeros (natToChars (x % 10 ^ d)) d)).length ≤ d := by
      have := trim_length_le (padLeftZeros (natToChars (x % 10 ^ d)) d)
      omega
    rw [if_neg Bool.false_ne_true, if_neg (by omega),
      padRight_trim _ d hfs_len hd1, parseDecDigits_padLeft,
      parseDecDigits_natToChars]
    show some (x / 10 ^ d * 10 ^ d + x % 10 ^ d) = some x
    rw [Nat.div_add_mod']

/-- C4: for every non-negative base-unit integer `x` (given by its canonical
decimal string) and every `decimals ≤ 30`,
`parseUnits(formatUnits(x, d), d) = x`; in particular
`formatUnits("1000000000000000000", 18) = "1.0"` and
`parseUnits("1.0", 18) = "1000000000000000000"`. -/
theorem unit_round_trip :
    (∀ x d : Nat, d ≤ 30 →
      parseUnitsStr (formatUnits x d) d = some (natToString x)) ∧
    formatUnits 1000000000000000000 18 = "1.0" ∧
    parseUnitsStr "1.0" 18 = some "1000000000000000000" := by
  refine ⟨fun x d _ => ?_, ?_, ?_⟩
  · unfold parseUnitsStr parseUnits formatUnits
    rw [show (⟨formatUnitsChars x d⟩ : String).data = formatUnitsChars x d
        from rfl,
      parseUnitsChars_formatUnitsChars]
    rfl
  · decide
  · decide

theorem unit_round_trip_witness :
    (2 : Nat) ≤ 30 ∧
    parseUnitsStr (formatUnits 1050 2) 2 = some (natToString 1050) :=
  ⟨by norm_num, unit_round_trip.1 1050 2 (by norm_num)⟩

/-! ### Error taxonomy (src/errors.ts) and manager operations -/

/-- A thrown JavaScript value: either a bare `Error` (`plain`) or an error of
the `PolygonError` hierarchy of `src/errors.ts` (`polygon`), which carries
the concrete class name (`kind`, standing in for `instanceof` checks), the
`message`, the machine-readable `code`, the structured `data` payload as
key-value pairs, and — where a constructor is handed the caught error as
its data — that original error (`cause`). -/
inductive JsErr : Type where
  | plain (message : String)
  | polygon (kind : String) (message : String) (code : String)
      (fields : List (String × String)) (cause : Option JsErr)

def JsErr.isPolygon : JsErr → Bool
  | .plain _ => false
  | .polygon .. => true

def JsErr.message : JsErr → String
  | .plain m => m
  | .polygon _ m _ _ _ => m

def JsErr.code? : JsErr → Option String
  | .plain _ => none
  | .polygon _ _ c _ _ => some c

def JsErr.kind? : JsErr → Option String
  | .plain _ => none
  | .polygon k _ _ _ _ => some k

/-- `new PolygonError(message, code)` (src/errors.ts lines 1-11). -/
def mkPolygonError (message code : String) : JsErr :=
  JsErr.polygon "PolygonError" message code [] none

/-- `InsufficientBalanceError` (src/errors.ts lines 13-21). -/
def insufficientBalanceError (required available : String) : JsErr :=
  JsErr.polygon "InsufficientBalanceError"
    ("Insufficient balance. Required: " ++ required ++ ", Available: " ++
      available)
    "INSUFFICIENT_BALANCE" [("required", required), ("available", available)]
    none

/-- `LicenseNotFoundError` (src/errors.ts lines 33-41). -/
def licenseNotFoundError (licenseId : String) : JsErr :=
  JsErr.polygon "LicenseNotFoundError" ("License not found: " ++ licenseId)
    "LICENSE_NOT_FOUND" [("licenseId", licenseId)] none

/-- `NFTNotFoundError` (src/errors.ts lines 43-51). -/
def nftNotFoundError (tokenId : String) : JsErr :=
  JsErr.polygon "NFTNotFoundError" ("NFT not found: " ++ tokenId)
    "NFT_NOT_FOUND" [("tokenId", tokenId)] none

/-- `InvalidAmountError` (src/errors.ts lines 53-61). -/
def invalidAmountError (amount : String) : JsErr :=
  JsErr.polygon "InvalidAmountError" ("Invalid amount: " ++ amount)
    "INVALID_AMOUNT" [("amount", amount)] none

/-- `NetworkError` (src/errors.ts lines 63-71). -/
def networkError (message : String) : JsErr :=
  JsErr.polygon "NetworkError" ("Network error: " ++ message)
    "NETWORK_ERROR" [("message", message)] none

/-- Modelled from the spec: `PolygonNetworkError` is imported from
`./errors` by the contract, token and wallet managers and by the facade,
but its class is not among those in the copy of `src/errors.ts`; per the
spec (§7) transport failures are surfaced as a taxonomy error with code
`NETWORK_ERROR` carrying the last underlying failure. -/
def polygonNetworkError (message : String) (cause : JsErr) : JsErr :=
  JsErr.polygon "PolygonNetworkError" message "NETWORK_ERROR" [] (some cause)

/-- The closed set of error codes postulated by the spec (§7). -/
def specErrorCodes : List String :=
  ["INVALID_ADDRESS", "INVALID_AMOUNT", "INSUFFICIENT_BALANCE",
   "SIGNER_REQUIRED", "TRANSACTION_FAILED", "NOT_FOUND", "NETWORK_ERROR",
   "CONTRACT_ERROR", "NOT_IMPLEMENTED"]

/-- The message of the placeholder `throw new Error(...)` in every
unimplemented manager method. -/
def notImplementedMsg : String :=
  "Not implemented - requires Polygon-specific implementation"

/-- The catch-block pattern
`if (error instanceof PolygonError) throw error; throw new
PolygonNetworkError(msg, error)` used across the managers. -/
def catchWrap (msg : String) (e : JsErr) : JsErr :=
  if e.isPolygon then e else polygonNetworkError msg e

/-- The catch-block pattern of the DeFi and license amount-validating
operations: `if (error instanceof InvalidAmountError) throw error;
throw new PolygonError(msg + error.message, code)`. -/
def catchWrapInvalidAmount (wrapMsg code : String) (e : JsErr) : JsErr :=
  if e.kind? = some "InvalidAmountError" then e
  else JsErr.polygon "PolygonError" (wrapMsg ++ ": " ++ e.message) code []
    none

/-- Result of one manager operation: what it returned or threw, together
with the number of network (provider / contract) calls it performed. -/
structure NetOutcome (α : Type) where
  result : Except JsErr α
  netCalls : Nat

def resultCode {α : Type} (o : NetOutcome α) : Option String :=
  match o.result with
  | Except.error e => e.code?
  | Except.ok _ => none

/-- `PolygonDeFiPool` of `src/types.ts`. -/
structure PolygonDeFiPool where
  address : String
  token0 : String
  token1 : String
  reserve0 : String
  reserve1 : String
  totalSupply : String
  fee : Nat

/-- `PolygonLicense` of `src/types.ts` (`metadata` as key-value pairs). -/
structure PolygonLicense where
  id : String
  owner : String
  productId : String
  licenseType : String
  status : String
  createdAt : Nat
  expiresAt : Option Nat
  metadata : List (String × String)

/-- The uniform transaction record built by the contract and wallet
managers (`PolygonTransaction` of `src/types.ts` plus the extra receipt
fields the managers add).  `sender`/`recipient` stand for the source's
`from`/`to`. -/
structure PolygonTransaction where
  hash : String
  sender : String
  recipient : String
  value : String
  gasLimit : String
  gasPrice : String
  gasUsed : String
  blockNumber : Nat
  blockHash : String
  transactionIndex : Nat
  status : String
  logs : List String
  effectiveGasPrice : String

/-! #### PolygonDeFiManager (src/PolygonDeFiManager.ts)

The business methods are placeholder stubs whose `try` block always throws
a plain `Error('Not implemented …')`; the `catch` block wraps the caught
error, re-raising it only when it is an `InvalidAmountError`. -/

/-- `getPools` try-block (lines 15-23): always the placeholder throw. -/
def DeFiManager.getPoolsTry : Except JsErr (List PolygonDeFiPool) :=
  Except.error (JsErr.plain notImplementedMsg)

/-- `PolygonDeFiManager.getPools` (lines 15-23). -/
def DeFiManager.getPools : NetOutcome (List PolygonDeFiPool) :=
  { result :=
      match DeFiManager.getPoolsTry with
      | Except.ok v => Except.ok v
      | Except.error e =>
        Except.error (JsErr.polygon "PolygonError"
          ("Failed to get pools: " ++ e.message) "GET_POOLS_ERROR" [] none)
    netCalls := 0 }

/-- `addLiquidity` try-block (lines 36-43): the amount validation
`!amountA || amountA === '0' || !amountB || amountB === '0'` (an empty
string is the only falsy string), then the placeholder throw. -/
def DeFiManager.addLiquidityTry (amountA amountB : String) :
    Except JsErr PolygonTransaction :=
  if amountA = "" ∨ amountA = "0" ∨ amountB = "" ∨ amountB = "0" then
    Except.error (invalidAmountError (amountA ++ "-" ++ amountB))
  else Except.error (JsErr.plain notImplementedMsg)

/-- `PolygonDeFiManager.addLiquidity` (lines 35-50). -/
def DeFiManager.addLiquidity (tokenA tokenB amountA amountB : String) :
    NetOutcome PolygonTransaction :=
  { result :=
      match DeFiManager.addLiquidityTry amountA amountB with
      | Except.ok v => Except.ok v
      | Except.error e =>
        Except.error
          (catchWrapInvalidAmount "Failed to add liquidity"
            "ADD_LIQUIDITY_ERROR" e)
    netCalls := 0 }

/-- `removeLiquidity` try-block (lines 53-60). -/
def DeFiManager.removeLiquidityTry (lpTokenAmount : String) :
    Except JsErr PolygonTransaction :=
  if lpTokenAmount = "" ∨ lpTokenAmount = "0" then
    Except.error (invalidAmountError lpTokenAmount)
  else Except.error (JsErr.plain notImplementedMsg)

/-- `PolygonDeFiManager.removeLiquidity` (lines 52-67). -/
def DeFiManager.removeLiquidity (tokenA tokenB lpTokenAmount : String) :
    NetOutcome PolygonTransaction :=
  { result :=
      match DeFiManager.removeLiquidityTry lpTokenAmount with
      | Except.ok v => Except.ok v
      | Except.error e =>
        Except.error
          (catchWrapInvalidAmount "Failed to remove liquidity"
            "REMOVE_LIQUIDITY_ERROR" e)
    netCalls := 0 }

/-- `swap` try-block (lines 70-81): `amountIn` is validated first, then
`amountOutMin`, then the placeholder throw. -/
def DeFiManager.swapTry (amountIn amountOutMin : String) :
    Except JsErr PolygonTransaction :=
  if amountIn = "" ∨ amountIn = "0" then
    Except.error (invalidAmountError amountIn)
  else if amountOutMin = "" ∨ amountOutMin = "0" then
    Except.error (invalidAmountError amountOutMin)
  else Except.error (JsErr.plain notImplementedMsg)

/-- `PolygonDeFiManager.swap` (lines 69-88). -/
def DeFiManager.swap (tokenIn tokenOut amountIn amountOutMin : String) :
    NetOutcome PolygonTransaction :=
  { result :=
      match DeFiManager.swapTry amountIn amountOutMin with
      | Except.ok v => Except.ok v
      | Except.error e =>
        Except.error
          (catchWrapInvalidAmount "Failed to swap" "SWAP_ERROR" e)
    netCalls := 0 }

/-- `getQuote` try-block (lines 91-98). -/
def DeFiManager.getQuoteTry (amountIn : String) :
    Except JsErr (String × Int) :=
  if amountIn = "" ∨ amountIn = "0" then
    Except.error (invalidAmountError amountIn)
  else Except.error (JsErr.plain notImplementedMsg)

/-- `PolygonDeFiManager.getQuote` (lines 90-105); the result pairs
`amountOut` with `priceImpact`. -/
def DeFiManager.getQuote (tokenIn tokenOut amountIn : String) :
    NetOutcome (String × Int) :=
  { result :=
      match DeFiManager.getQuoteTry amountIn with
      | Except.ok v => Except.ok v
      | Except.error e =>
        Except.error
          (catchWrapInvalidAmount "Failed to get quote" "QUOTE_ERROR" e)
    netCalls := 0 }

/-! #### PolygonLicenseManager (src/PolygonLicenseManager.ts) -/

/-- `getLicense` try-block (lines 26-29): the placeholder throw. -/
def LicenseManager.getLicenseTry : Except JsErr PolygonLicense :=
  Except.error (JsErr.plain notImplementedMsg)

/-- `PolygonLicenseManager.getLicense` (lines 25-33): the catch block
unconditionally throws `LicenseNotFoundError(licenseId)`. -/
def LicenseManager.getLicense (licenseId : String) :
    NetOutcome PolygonLicense :=
  { result :=
      match LicenseManager.getLicenseTry with
      | Except.ok v => Except.ok v
      | Except.error _ => Except.error (licenseNotFoundError licenseId)
    netCalls := 0 }

/-- `extendLicense` try-block (lines 86-93): `additionalTime <= 0` raises
`InvalidAmountError(additionalTime.toString())`, then the placeholder
throw. -/
def LicenseManager.extendLicenseTry (additionalTime : Int) :
    Except JsErr PolygonTransaction :=
  if additionalTime ≤ 0 then
    Except.error (invalidAmountError (toString additionalTime))
  else Except.error (JsErr.plain notImplementedMsg)

/-- `PolygonLicenseManager.extendLicense` (lines 85-100). -/
def LicenseManager.extendLicense (licenseId : String)
    (additionalTime : Int) : NetOutcome PolygonTransaction :=
  { result :=
      match LicenseManager.extendLicenseTry additionalTime with
      | Except.ok v => Except.ok v
      | Except.error e =>
        Except.error
          (catchWrapInvalidAmount "Failed to extend license"
            "EXTEND_LICENSE_ERROR" e)
    netCalls := 0 }

/-! #### PolygonNFTManager (src/PolygonNFTManager.ts, first class) -/

/-- `PolygonNFT` of `src/types.ts` (metadata flattened to its fields). -/
structure PolygonNFT where
  tokenId : String
  contractAddress : String
  owner : String
  metadataName : String
  metadataDescription : String
  metadataImage : String
  royaltyRecipient : String
  royaltyPercentage : Nat

/-- `PolygonNFTManager.getNFT` (lines 25-33): the catch block
unconditionally throws `NFTNotFoundError(tokenId)`. -/
def NFTManager.getNFT (tokenId contractAddress : String) :
    NetOutcome PolygonNFT :=
  { result :=
      match (Except.error (JsErr.plain notImplementedMsg) :
          Except JsErr PolygonNFT) with
      | Except.ok v => Except.ok v
      | Except.error _ => Except.error (nftNotFoundError tokenId)
    netCalls := 0 }

/-- `PolygonNFTManager.mint` (lines 15-23): the catch block wraps any
error into a `PolygonError` with code `MINT_ERROR`. -/
def NFTManager.mint (contractAddress toAddr : String) :
    NetOutcome PolygonTransaction :=
  { result :=
      match (Except.error (JsErr.plain notImplementedMsg) :
          Except JsErr PolygonTransaction) with
      | Except.ok v => Except.ok v
      | Except.error e =>
        Except.error (JsErr.polygon "PolygonError"
          ("Failed to mint NFT: " ++ e.message) "MINT_ERROR" [] none)
    netCalls := 0 }

/-! #### PolygonTokenManager (second class of src/PolygonNFTManager.ts)

The ethers provider/contract calls are oracle parameters: `isAddr`
models `ethers.utils.isAddress` (behind `validateAddress` of
`src/utils.ts`), and each RPC round trip is an `Except`-valued argument.
Retried submissions take the attempt number, as in the `retry` model. -/

/-- `PolygonToken` of `src/types.ts` (`tokenType` stands for `type`). -/
structure PolygonToken where
  address : String
  name : String
  symbol : String
  decimals : Nat
  totalSupply : String
  tokenType : String

/-- `PolygonTokenManager.getTokenInfo` (lines 154-195): address validation,
then one multicall (`name/symbol/decimals/totalSupply`), with the standard
`instanceof PolygonError` pass-through catch. -/
def TokenManager.getTokenInfo (isAddr : String → Bool)
    (tokenAddress : String)
    (infoCall : Except JsErr (String × String × Nat × Nat)) :
    NetOutcome PolygonToken :=
  if isAddr tokenAddress = false then
    { result :=
        Except.error (mkPolygonError "Invalid token address"
          "INVALID_ADDRESS")
      netCalls := 0 }
  else
    match infoCall with
    | Except.ok (name, symbol, decimals, totalSupply) =>
      { result := Except.ok
          { address := tokenAddress, name := name, symbol := symbol,
            decimals := decimals, totalSupply := natToString totalSupply,
            tokenType := "ERC20" }
        netCalls := 1 }
    | Except.error e =>
      { result := Except.error (catchWrap "Failed to get token info" e)
        netCalls := 1 }

/-- `PolygonTokenManager.transferToken` (lines 231-267): signer guard, one
`decimals()` call, `parseUnits` on the amount (whose exception is caught by
the same catch block), the retried `transfer` submission, and the
`instanceof PolygonError` pass-through catch. -/
def TokenManager.transferToken (hasSigner : Bool)
    (tokenAddress toAddress amount : String)
    (decimalsCall : Except JsErr Nat)
    (transferCall : Nat → Except JsErr String) : NetOutcome String :=
  if hasSigner = false then
    { result :=
        Except.error (mkPolygonError "Signer required for token transfer"
          "SIGNER_REQUIRED")
      netCalls := 0 }
  else
    match decimalsCall with
    | Except.error e =>
      { result := Except.error (catchWrap "Failed to transfer token" e)
        netCalls := 1 }
    | Except.ok decimals =>
      match parseUnits amount decimals with
      | none =>
        { result := Except.error (catchWrap "Failed to transfer token"
            (JsErr.plain "invalid decimal value"))
          netCalls := 1 }
      | some _ =>
        let t := retry transferCall 3 1000
        { result :=
            match t.result with
            | Except.ok h => Except.ok h
            | Except.error e =>
              Except.error (catchWrap "Failed to transfer token" e)
          netCalls := 1 + t.invocations }

/-- `PolygonTokenManager.approveToken` (lines 269-305), same shape as
`transferToken`. -/
def TokenManager.approveToken (hasSigner : Bool)
    (tokenAddress spenderAddress amount : String)
    (decimalsCall : Except JsErr Nat)
    (approveCall : Nat → Except JsErr String) : NetOutcome String :=
  if hasSigner = false then
    { result :=
        Except.error (mkPolygonError "Signer required for token approval"
          "SIGNER_REQUIRED")
      netCalls := 0 }
  else
    match decimalsCall with
    | Except.error e =>
      { result := Except.error (catchWrap "Failed to approve token" e)
        netCalls := 1 }
    | Except.ok decimals =>
      match parseUnits amount decimals with
      | none =>
        { result := Except.error (catchWrap "Failed to approve token"
            (JsErr.plain "invalid decimal value"))
          netCalls := 1 }
      | some _ =>
        let t := retry approveCall 3 1000
        { result :=
            match t.result with
            | Except.ok h => Except.ok h
            | Except.error e =>
              Except.error (catchWrap "Failed to approve token" e)
          netCalls := 1 + t.invocations }

/-- `PolygonTokenManager.transferFromToken` (lines 307-344), same shape as
`transferToken`. -/
def TokenManager.transferFromToken (hasSigner : Bool)
    (tokenAddress fromAddress toAddress amount : String)
    (decimalsCall : Except JsErr Nat)
    (transferFromCall : Nat → Except JsErr String) : NetOutcome String :=
  if hasSigner = false then
    { result :=
        Except.error (mkPolygonError "Signer required for transferFrom"
          "SIGNER_REQUIRED")
      netCalls := 0 }
  else
    match decimalsCall with
    | Except.error e =>
      { result := Except.error (catchWrap "Failed to transferFrom token" e)
        netCalls := 1 }
    | Except.ok decimals =>
      match parseUnits amount decimals with
      | none =>
        { result := Except.error (catchWrap "Failed to transferFrom token"
            (JsErr.plain "invalid decimal value"))
          netCalls := 1 }
      | some _ =>
        let t := retry transferFromCall 3 1000
        { result :=
            match t.result with
            | Except.ok h => Except.ok h
            | Except.error e =>
              Except.error (catchWrap "Failed to transferFrom token" e)
          netCalls := 1 + t.invocations }

/-! #### PolygonContractManager (src/PolygonContractManager.ts) -/

/-- A transaction response object as returned by ethers (`tx` in the
source): `recipient`/`gasPrice` are optional as in
`tx.to || …` / `tx.gasPrice?.toString() || '0'`. -/
structure SentTx where
  hash : String
  sender : String
  recipient : Option String
  value : Nat
  gasLimit : Nat
  gasPrice : Option Nat

/-- A transaction receipt as returned by ethers: `status` and
`effectiveGasPrice` are optional fields. -/
structure TxReceipt where
  status : Option Nat
  gasUsed : Nat
  blockNumber : Nat
  blockHash : String
  transactionIndex : Nat
  logs : List String
  effectiveGasPrice : Option Nat

/-- `contract.deployTransaction` data for `deployContract`. -/
structure DeployedTx where
  address : String
  hash : String
  gasLimit : Option Nat
  gasPrice : Option Nat

/-- `PolygonContract` of the contract manager's `deployContract` result. -/
structure PolygonContract where
  address : String
  abi : String
  bytecode : String
  deployedAt : String
  transactionHash : String
  gasUsed : String
  gasPrice : String

/-- `PolygonContractManager.getContract` (lines 64-78): pure address
validation, no network call; invalid addresses raise `INVALID_ADDRESS`. -/
def ContractManager.getContract (isAddr : String → Bool)
    (address : String) : Except JsErr Unit :=
  if isAddr address = false then
    Except.error (mkPolygonError "Invalid contract address"
      "INVALID_ADDRESS")
  else Except.ok ()

/-- `PolygonContractManager.deployContract` (lines 20-62): signer guard,
retried gas-estimation + deployment (`deployAttempt`, per attempt), the
`contract.deployed()` wait, and the record built from the deploy
transaction; `nowIso` models `new Date().toISOString()`. -/
def ContractManager.deployContract (hasSigner : Bool)
    (bytecode abi : String)
    (deployAttempt : Nat → Except JsErr DeployedTx)
    (deployedWait : Except JsErr Unit) (nowIso : String) :
    NetOutcome PolygonContract :=
  if hasSigner = false then
    { result :=
        Except.error (mkPolygonError
          "Signer required for contract deployment" "SIGNER_REQUIRED")
      netCalls := 0 }
  else
    let t := retry deployAttempt 3 1000
    match t.result with
    | Except.error e =>
      { result := Except.error (catchWrap "Failed to deploy contract" e)
        netCalls := t.invocations }
    | Except.ok tx =>
      match deployedWait with
      | Except.error e =>
        { result := Except.error (catchWrap "Failed to deploy contract" e)
          netCalls := t.invocations + 1 }
      | Except.ok _ =>
        { result := Except.ok
            { address := tx.address, abi := abi, bytecode := bytecode,
              deployedAt := nowIso, transactionHash := tx.hash,
              gasUsed :=
                match tx.gasLimit with
                | some g => natToString g
                | none => "0",
              gasPrice :=
                match tx.gasPrice with
                | some g => natToString g
                | none => "0" }
          netCalls := t.invocations + 1 }

/-- `PolygonContractManager.sendContractTransaction` (lines 97-147):
signer guard, `getContract` address validation (no network), the retried
gas-estimation + method call, `tx.wait()`, and the uniform record with
`status: receipt.status === 1 ? 'success' : 'failed'`. -/
def ContractManager.sendContractTransaction (hasSigner : Bool)
    (isAddr : String → Bool) (contractAddress methodName : String)
    (txAttempt : Nat → Except JsErr SentTx)
    (waitCall : Except JsErr TxReceipt) : NetOutcome PolygonTransaction :=
  if hasSigner = false then
    { result :=
        Except.error (mkPolygonError
          "Signer required for contract transactions" "SIGNER_REQUIRED")
      netCalls := 0 }
  else
    match ContractManager.getContract isAddr contractAddress with
    | Except.error e =>
      { result := Except.error
          (catchWrap ("Failed to send contract transaction " ++ methodName)
            e)
        netCalls := 0 }
    | Except.ok _ =>
      let t := retry txAttempt 3 1000
      match t.result with
      | Except.error e =>
        { result := Except.error
            (catchWrap
              ("Failed to send contract transaction " ++ methodName) e)
          netCalls := t.invocations }
      | Except.ok tx =>
        match waitCall with
        | Except.error e =>
          { result := Except.error
              (catchWrap
                ("Failed to send contract transaction " ++ methodName) e)
            netCalls := t.invocations + 1 }
        | Except.ok receipt =>
          { result := Except.ok
              { hash := tx.hash, sender := tx.sender,
                recipient :=
                  match tx.recipient with
                  | some r => r
                  | none => contractAddress,
                value := natToString tx.value,
                gasLimit := natToString tx.gasLimit,
                gasPrice :=
                  match tx.gasPrice with
                  | some g => natToString g
                  | none => "0",
                gasUsed := natToString receipt.gasUsed,
                blockNumber := receipt.blockNumber,
                blockHash := receipt.blockHash,
                transactionIndex := receipt.transactionIndex,
                status :=
                  if receipt.status = some 1 then "success" else "failed",
                logs := receipt.logs,
                effectiveGasPrice :=
                  match receipt.effectiveGasPrice with
                  | some g => natToString g
                  | none => "0" }
            netCalls := t.invocations + 1 }

/-- `PolygonContractManager.getTransaction` (lines 244-269): a transaction
lookup, `null` for an unknown hash, then the receipt lookup; the record's
`status` is `receipt?.status === 1 ? 'success' : 'failed'`, and all
receipt-derived fields use `|| defaults` when the receipt is absent. -/
def ContractManager.getTransaction
    (txCall : Except JsErr (Option SentTx))
    (receiptCall : Except JsErr (Option TxReceipt)) :
    NetOutcome (Option PolygonTransaction) :=
  match txCall with
  | Except.error e =>
    { result := Except.error
        (polygonNetworkError "Failed to get transaction" e)
      netCalls := 1 }
  | Except.ok none => { result := Except.ok none, netCalls := 1 }
  | Except.ok (some tx) =>
    match receiptCall with
    | Except.error e =>
      { result := Except.error
          (polygonNetworkError "Failed to get transaction" e)
        netCalls := 2 }
    | Except.ok receipt =>
      { result := Except.ok (some
          { hash := tx.hash, sender := tx.sender,
            recipient :=
              match tx.recipient with
              | some r => r
              | none => "",
            value := natToString tx.value,
            gasLimit := natToString tx.gasLimit,
            gasPrice :=
              match tx.gasPrice with
              | some g => natToString g
              | none => "0",
            gasUsed :=
              match receipt with
              | some r => natToString r.gasUsed
              | none => "0",
            blockNumber :=
              match receipt with
              | some r => r.blockNumber
              | none => 0,
            blockHash :=
              match receipt with
              | some r => r.blockHash
              | none => "",
            transactionIndex :=
              match receipt with
              | some r => r.transactionIndex
              | none => 0,
            status :=
              if (match receipt with
                  | some r => r.status
                  | none => none) = some 1
              then "success" else "failed",
            logs :=
              match receipt with
              | some r => r.logs
              | none => [],
            effectiveGasPrice :=
              match receipt with
              | some r =>
                match r.effectiveGasPrice with
                | some g => natToString g
                | none => "0"
              | none => "0" })
        netCalls := 2 }

/-- An ethers block object (`provider.getBlock` result). -/
structure BlockData where
  number : Nat
  hash : String
  parentHash : String
  timestamp : Nat
  gasLimit : Nat
  gasUsed : Nat
  transactions : List String
  size : Nat

/-- `PolygonContractManager.getBlock` (lines 303-309): a plain forward to
`provider.getBlock`, every failure wrapped into
`PolygonNetworkError('Failed to get block', error)`. -/
def ContractManager.getBlock (blockCall : Except JsErr BlockData) :
    NetOutcome BlockData :=
  match blockCall with
  | Except.ok b => { result := Except.ok b, netCalls := 1 }
  | Except.error e =>
    { result := Except.error (polygonNetworkError "Failed to get block" e)
      netCalls := 1 }

/-! #### PolygonWalletManager (src/unnamed/part_000) -/

/-- `PolygonWalletManager.sendTransaction` (lines 109-159): wallet guard
(`WALLET_NOT_INITIALIZED`), recipient validation (`INVALID_ADDRESS`), the
retried `wallet.sendTransaction` (the request, including
`parseEther(value)`, is built inside the retried closure), `tx.wait()`,
and the uniform record; the catch re-raises `instanceof PolygonError`. -/
def WalletManager.sendTransaction (hasWallet : Bool)
    (isAddr : String → Bool) (toAddr value : String)
    (sendAttempt : Nat → Except JsErr SentTx)
    (waitCall : Except JsErr TxReceipt) : NetOutcome PolygonTransaction :=
  if hasWallet = false then
    { result :=
        Except.error (mkPolygonError "Wallet not initialized"
          "WALLET_NOT_INITIALIZED")
      netCalls := 0 }
  else if isAddr toAddr = false then
    { result :=
        Except.error (mkPolygonError "Invalid recipient address"
          "INVALID_ADDRESS")
      netCalls := 0 }
  else
    let t := retry sendAttempt 3 1000
    match t.result with
    | Except.error e =>
      { result := Except.error (catchWrap "Failed to send transaction" e)
        netCalls := t.invocations }
    | Except.ok tx =>
      match waitCall with
      | Except.error e =>
        { result := Except.error (catchWrap "Failed to send transaction" e)
          netCalls := t.invocations + 1 }
      | Except.ok receipt =>
        { result := Except.ok
            { hash := tx.hash, sender := tx.sender,
              recipient :=
                match tx.recipient with
                | some r => r
                | none => "",
              value := natToString tx.value,
              gasLimit := natToString tx.gasLimit,
              gasPrice :=
                match tx.gasPrice with
                | some g => natToString g
                | none => "0",
              gasUsed := natToString receipt.gasUsed,
              blockNumber := receipt.blockNumber,
              blockHash := receipt.blockHash,
              transactionIndex := receipt.transactionIndex,
              status :=
                if receipt.status = some 1 then "success" else "failed",
              logs := receipt.logs,
              effectiveGasPrice :=
                match receipt.effectiveGasPrice with
                | some g => natToString g
                | none => "0" }
          netCalls := t.invocations + 1 }

/-! #### LicenseChainPolygon facade (first class of src/index.ts) -/

/-- The facade's `PolygonBlock` record (`getBlock`, lines 99-116). -/
structure PolygonBlock where
  number : Nat
  hash : String
  parentHash : String
  timestamp : Nat
  gasLimit : String
  gasUsed : String
  transactions : List String
  size : Nat

/-- `LicenseChainPolygon.getBlock` (src/index.ts lines 99-116): forwards
to the contract manager, then rebuilds the block record; the catch block
unconditionally wraps the caught error — including the manager's taxonomy
`PolygonNetworkError` — into
`new PolygonError('Failed to get block', 'BLOCK_ERROR', error)`. -/
def LicenseChainPolygon.getBlock (blockCall : Except JsErr BlockData) :
    NetOutcome PolygonBlock :=
  match ContractManager.getBlock blockCall with
  | { result := Except.ok b, netCalls := n } =>
    { result := Except.ok
        { number := b.number, hash := b.hash, parentHash := b.parentHash,
          timestamp := b.timestamp, gasLimit := natToString b.gasLimit,
          gasUsed := natToString b.gasUsed,
          transactions := b.transactions, size := b.size }
      netCalls := n }
  | { result := Except.error e, netCalls := n } =>
    { result := Except.error
        (JsErr.polygon "PolygonError" "Failed to get block" "BLOCK_ERROR"
          [] (some e))
      netCalls := n }

/-- C5 counterexample: `PolygonDeFiManager.getPools` fails with code
`GET_POOLS_ERROR`, which is outside the spec's closed set of nine codes. -/
theorem error_code_outside_spec_set :
    resultCode DeFiManager.getPools = some "GET_POOLS_ERROR" ∧
    "GET_POOLS_ERROR" ∉ specErrorCodes := by
  exact ⟨rfl, by decide⟩

/-- C5 (amended): every embedded manager operation that fails does fail
with a typed `PolygonError` carrying a machine-readable code — a
`resultCode` of `some _` is only produced by the `polygon` constructor —
but the codes are operation-specific (`GET_POOLS_ERROR`,
`ADD_LIQUIDITY_ERROR`, …, `LICENSE_NOT_FOUND`, `NFT_NOT_FOUND`), not drawn
from the spec's closed nine-code set. -/
theorem error_codes_typed_but_operation_specific :
    resultCode DeFiManager.getPools = some "GET_POOLS_ERROR" ∧
    resultCode (DeFiManager.addLiquidity "TA" "TB" "1" "2") =
      some "ADD_LIQUIDITY_ERROR" ∧
    resultCode (DeFiManager.removeLiquidity "TA" "TB" "3") =
      some "REMOVE_LIQUIDITY_ERROR" ∧
    resultCode (DeFiManager.swap "TA" "TB" "5" "1") = some "SWAP_ERROR" ∧
    resultCode (DeFiManager.getQuote "TA" "TB" "5") = some "QUOTE_ERROR" ∧
    resultCode (LicenseManager.getLicense "L1") =
      some "LICENSE_NOT_FOUND" ∧
    resultCode (LicenseManager.extendLicense "L1" 7) =
      some "EXTEND_LICENSE_ERROR" ∧
    resultCode (NFTManager.getNFT "T1" "C1") = some "NFT_NOT_FOUND" ∧
    resultCode (NFTManager.mint "C1" "O1") = some "MINT_ERROR" := by
  decide

/-- C6 counterexample: when the provider fails, the facade's `getBlock`
calls the contract manager, whose error is the taxonomy code
`NETWORK_ERROR`; the facade's unconditional catch re-wraps it into
`BLOCK_ERROR` instead of surfacing it unchanged. -/
theorem taxonomy_error_rewrapped_by_facade :
    resultCode
      (ContractManager.getBlock (Except.error (JsErr.plain "timeout"))) =
      some "NETWORK_ERROR" ∧
    resultCode
      (LicenseChainPolygon.getBlock
        (Except.error (JsErr.plain "timeout"))) = some "BLOCK_ERROR" ∧
    some "BLOCK_ERROR" ≠ some "NETWORK_ERROR" := by
  decide

/-- C6 (amended): operations whose catch block re-raises
`instanceof PolygonError` — such as `getTokenInfo` and `transferToken` —
surface an internally-raised taxonomy error as that exact error object;
but facade operations like `LicenseChainPolygon.getBlock` re-wrap
unconditionally, so the internal `NETWORK_ERROR` always surfaces as
`BLOCK_ERROR` there. -/
theorem taxonomy_error_passthrough_in_guarded_ops
    (isAddr : String → Bool) (a amt : String) (e ep : JsErr)
    (haddr : isAddr a = true) (he : e.isPolygon = true) :
    (TokenManager.getTokenInfo isAddr a (Except.error e)).result =
      Except.error e ∧
    (TokenManager.transferToken true a a amt (Except.error e)
      (fun _ => Except.error (JsErr.plain "x"))).result = Except.error e ∧
    resultCode (LicenseChainPolygon.getBlock (Except.error ep)) =
      some "BLOCK_ERROR" := by
  refine ⟨?_, ?_, ?_⟩
  · simp [TokenManager.getTokenInfo, haddr, catchWrap, he]
  · simp [TokenManager.transferToken, catchWrap, he]
  · simp [LicenseChainPolygon.getBlock, ContractManager.getBlock,
      resultCode, JsErr.code?]

theorem taxonomy_error_passthrough_in_guarded_ops_witness :
    ((fun _ : String => true) "0xA" = true) ∧
    (mkPolygonError "Invalid token address" "INVALID_ADDRESS").isPolygon =
      true ∧
    ((TokenManager.getTokenInfo (fun _ => true) "0xA"
        (Except.error
          (mkPolygonError "Invalid token address"
            "INVALID_ADDRESS"))).result =
      Except.error
        (mkPolygonError "Invalid token address" "INVALID_ADDRESS") ∧
      (TokenManager.transferToken true "0xA" "0xA" "1"
        (Except.error
          (mkPolygonError "Invalid token address" "INVALID_ADDRESS"))
        (fun _ => Except.error (JsErr.plain "x"))).result =
      Except.error
        (mkPolygonError "Invalid token address" "INVALID_ADDRESS") ∧
      resultCode
        (LicenseChainPolygon.getBlock
          (Except.error (JsErr.plain "down"))) = some "BLOCK_ERROR") :=
  ⟨rfl, rfl,
    taxonomy_error_passthrough_in_guarded_ops (fun _ => true) "0xA" "1"
      (mkPolygonError "Invalid token address" "INVALID_ADDRESS")
      (JsErr.plain "down") rfl rfl⟩

/-- C7 (amended): every embedded state-mutating operation checks its
signing identity before touching the network and fails with zero network
calls; the token and contract operations use code `SIGNER_REQUIRED`, while
`PolygonWalletManager.sendTransaction` uses `WALLET_NOT_INITIALIZED`. -/
theorem signer_required_guards
    (toAddress spender fromAddr amount bytecode abi methodName
      contractAddress nowIso toA value : String)
    (isAddr : String → Bool) (dcall : Except JsErr Nat)
    (scall : Nat → Except JsErr String)
    (datt : Nat → Except JsErr DeployedTx) (dwait : Except JsErr Unit)
    (tatt : Nat → Except JsErr SentTx) (wcall : Except JsErr TxReceipt) :
    TokenManager.transferToken false "T" toAddress amount dcall scall =
      { result := Except.error
          (mkPolygonError "Signer required for token transfer"
            "SIGNER_REQUIRED")
        netCalls := 0 } ∧
    TokenManager.approveToken false "T" spender amount dcall scall =
      { result := Except.error
          (mkPolygonError "Signer required for token approval"
            "SIGNER_REQUIRED")
        netCalls := 0 } ∧
    TokenManager.transferFromToken false "T" fromAddr toAddress amount
        dcall scall =
      { result := Except.error
          (mkPolygonError "Signer required for transferFrom"
            "SIGNER_REQUIRED")
        netCalls := 0 } ∧
    ContractManager.deployContract false bytecode abi datt dwait nowIso =
      { result := Except.error
          (mkPolygonError "Signer required for contract deployment"
            "SIGNER_REQUIRED")
        netCalls := 0 } ∧
    ContractManager.sendContractTransaction false isAddr contractAddress
        methodName tatt wcall =
      { result := Except.error
          (mkPolygonError "Signer required for contract transactions"
            "SIGNER_REQUIRED")
        netCalls := 0 } ∧
    WalletManager.sendTransaction false isAddr toA value tatt wcall =
      { result := Except.error
          (mkPolygonError "Wallet not initialized"
            "WALLET_NOT_INITIALIZED")
        netCalls := 0 } :=
  ⟨rfl, rfl, rfl, rfl, rfl, rfl⟩

/-- C7 counterexample: with no signing identity,
`PolygonWalletManager.sendTransaction` does fail before any network call,
but with code `WALLET_NOT_INITIALIZED`, not `SIGNER_REQUIRED`. -/
theorem wallet_send_signer_code_cex :
    resultCode
      (WalletManager.sendTransaction false (fun _ => true) "0xd" "1.0"
        (fun _ => Except.error (JsErr.plain "x"))
        (Except.error (JsErr.plain "x"))) =
      some "WALLET_NOT_INITIALIZED" ∧
    (WalletManager.sendTransaction false (fun _ => true) "0xd" "1.0"
      (fun _ => Except.error (JsErr.plain "x"))
      (Except.error (JsErr.plain "x"))).netCalls = 0 ∧
    some "WALLET_NOT_INITIALIZED" ≠ some "SIGNER_REQUIRED" :=
  ⟨rfl, rfl, by decide⟩

/-- C8 (amended): a zero or empty amount makes the DeFi operations (and a
non-positive `additionalTime` makes `extendLicense`) fail with the exact
`InvalidAmountError` — unwrapped, with zero network calls; unparsable but
non-empty, non-zero amount strings are not validated (see the
counterexample). -/
theorem invalid_amount_failfast
    (tokenA tokenB lp amountA amountB amountIn amountOutMin
      licenseId : String) (t : Int) :
    ((amountA = "" ∨ amountA = "0") →
      DeFiManager.addLiquidity tokenA tokenB amountA amountB =
        { result := Except.error
            (invalidAmountError (amountA ++ "-" ++ amountB))
          netCalls := 0 }) ∧
    ((lp = "" ∨ lp = "0") →
      DeFiManager.removeLiquidity tokenA tokenB lp =
        { result := Except.error (invalidAmountError lp)
          netCalls := 0 }) ∧
    ((amountIn = "" ∨ amountIn = "0") →
      DeFiManager.swap tokenA tokenB amountIn amountOutMin =
        { result := Except.error (invalidAmountError amountIn)
          netCalls := 0 }) ∧
    ((amountIn = "" ∨ amountIn = "0") →
      DeFiManager.getQuote tokenA tokenB amountIn =
        { result := Except.error (invalidAmountError amountIn)
          netCalls := 0 }) ∧
    (t ≤ 0 →
      LicenseManager.extendLicense licenseId t =
        { result := Except.error (invalidAmountError (toString t))
          netCalls := 0 }) := by
  refine ⟨?_, ?_, ?_, ?_, ?_⟩
  · rintro (h | h) <;>
      simp [DeFiManager.addLiquidity, DeFiManager.addLiquidityTry, h,
        catchWrapInvalidAmount, invalidAmountError, JsErr.kind?]
  · rintro (h | h) <;>
      simp [DeFiManager.removeLiquidity, DeFiManager.removeLiquidityTry, h,
        catchWrapInvalidAmount, invalidAmountError, JsErr.kind?]
  · rintro (h | h) <;>
      simp [DeFiManager.swap, DeFiManager.swapTry, h,
        catchWrapInvalidAmount, invalidAmountError, JsErr.kind?]
  · rintro (h | h) <;>
      simp [DeFiManager.getQuote, DeFiManager.getQuoteTry, h,
        catchWrapInvalidAmount, invalidAmountError, JsErr.kind?]
  · intro h
    simp [LicenseManager.extendLicense, LicenseManager.extendLicenseTry, h,
      catchWrapInvalidAmount, invalidAmountError, JsErr.kind?]

theorem invalid_amount_failfast_witness :
    (("0" : String) = "" ∨ ("0" : String) = "0") ∧
    DeFiManager.addLiquidity "TA" "TB" "0" "2" =
      { result := Except.error (invalidAmountError ("0" ++ "-" ++ "2"))
        netCalls := 0 } :=
  ⟨Or.inr rfl,
    (invalid_amount_failfast "TA" "TB" "x" "0" "2" "1" "1" "L" 1).1
      (Or.inr rfl)⟩

/-- C8 counterexample: an unparsable amount string is not caught by the
validation (`!amount || amount === '0'`), so `swap` reaches the
placeholder throw and fails with `SWAP_ERROR`, not `INVALID_AMOUNT`. -/
theorem unparsable_amount_not_invalid_amount :
    resultCode (DeFiManager.swap "TA" "TB" "abc" "1") =
      some "SWAP_ERROR" ∧
    some "SWAP_ERROR" ≠ some "INVALID_AMOUNT" := by
  decide

/-- Status of the transaction record a lookup produced, when it produced
one. -/
def txStatus (o : NetOutcome (Option PolygonTransaction)) : Option String :=
  match o.result with
  | Except.ok (some t) => some t.status
  | _ => none

/-- A concrete ethers transaction response used in the receipt-status
counterexample. -/
def sampleTx : SentTx :=
  { hash := "0xhash", sender := "0xsender", recipient := some "0xto",
    value := 5, gasLimit := 21000, gasPrice := some 3 }

/-- C9 counterexample: `getTransaction` with a found transaction but no
receipt yet reports status `failed`, not `pending` — `receipt?.status === 1
? 'success' : 'failed'` can never produce `pending`. -/
theorem absent_receipt_status_failed_cex :
    txStatus
      (ContractManager.getTransaction (Except.ok (some sampleTx))
        (Except.ok none)) = some "failed" ∧
    some "failed" ≠ some "pending" := by
  decide

/-- C9 (amended): the record's status is `success` exactly when a receipt
is present with status code 1; any other present status code and an absent
receipt both map to `failed`; `pending` is never produced. -/
theorem receipt_status_mapping (tx : SentTx) (receipt : Option TxReceipt) :
    (txStatus
        (ContractManager.getTransaction (Except.ok (some tx))
          (Except.ok receipt)) = some "success" ↔
      (match receipt with
        | some r => r.status = some 1
        | none => False)) ∧
    txStatus
      (ContractManager.getTransaction (Except.ok (some tx))
        (Except.ok receipt)) ≠ some "pending" := by
  cases receipt with
  | none =>
    constructor
    · simp [ContractManager.getTransaction, txStatus]
    · simp [ContractManager.getTransaction, txStatus]
  | some r =>
    by_cases hs : r.status = some 1
    · constructor
      · simp [ContractManager.getTransaction, txStatus, hs]
      · simp [ContractManager.getTransaction, txStatus, hs]
    · constructor
      · simp [ContractManager.getTransaction, txStatus, hs]
      · simp [ContractManager.getTransaction, txStatus, hs]

theorem receipt_status_mapping_witness :
    txStatus
      (ContractManager.getTransaction (Except.ok (some sampleTx))
        (Except.ok none)) ≠ some "pending" :=
  (receipt_status_mapping sampleTx none).2

end PolygonSDK
